import Mathlib

/-!
Shallow embedding of the client-side scripting layer of the MB Secure static
website, together with theorems settling the specification claims.

The embedding covers:
* `getBasePath` from the site configuration script (relative asset prefix
  computation, including the GitHub Pages project-site segment drop);
* `escapeHtml`, `navList`, the slide-in `panel` behaviour (hide, anchor
  toggle, swipe detection) from the utility script;
* the homepage scroll spy (`onScroll` section search and
  `updateCurrentSection` current-marker maintenance) from the navigation
  component;
* the JSON-LD structured data emitter from the blog meta script.

JavaScript strings are modelled as Lean `String` (lists of characters),
JavaScript numbers appearing in layout arithmetic as `Int` or `Rat`, DOM
class lists as finite sets of class names, and nullable values as `Option`.
-/

/-! ### Character and string helpers -/

/-- The double quote character, kept behind a name so statements about the
escaper can mention it without a character literal. -/
def quoteChar : Char := Char.ofNat 34

/-- The apostrophe character. -/
def aposChar : Char := Char.ofNat 39

/-- Replace every occurrence of the character `c` in `l` by the replacement
text `r`.  This is the effect of the JavaScript global regular expression
replace with a single-character pattern, as used in `escapeHtml`. -/
def replaceChar : List Char → Char → List Char → List Char
  | [], _, _ => []
  | x :: xs, c, r => (if x = c then r else [x]) ++ replaceChar xs c r

/-- Split a character list at every occurrence of the separator `c`,
mirroring the JavaScript `String.prototype.split` with a single-character
separator (empty pieces are kept, so a leading or trailing separator yields
an empty piece). -/
def splitChar : List Char → Char → List (List Char)
  | [], _ => [[]]
  | x :: xs, c =>
    if x = c then [] :: splitChar xs c
    else
      match splitChar xs c with
      | ys :: rest => (x :: ys) :: rest
      | [] => [[x]]

/-! ### escapeHtml (utility script)

```js
function escapeHtml(str) {
  if (!str) return '';
  return String(str)
    .replace(/&/g, '&amp;')
    .replace(/</g, '&lt;')
    .replace(/>/g, '&gt;')
    .replace(/"/g, '&quot;')
    .replace(/'/g, '&#39;');
}
```
The argument is modelled as `Option String`: `none` stands for the
JavaScript `null` and `undefined` arguments, and the empty string is the
remaining falsy string value. -/

/-- The five sequential global replacements of `escapeHtml`, on character
lists. -/
def escapeHtmlData (l : List Char) : List Char :=
  replaceChar
    (replaceChar
      (replaceChar
        (replaceChar
          (replaceChar l '&' ("&amp;").data)
          '<' ("&lt;").data)
        '>' ("&gt;").data)
      quoteChar ("&quot;").data)
    aposChar ("&#39;").data

/-- Model of `escapeHtml`. -/
def escapeHtml : Option String → String
  | none => ""
  | some s => if s == "" then "" else String.mk (escapeHtmlData s.data)

/-! ### getBasePath (site configuration script)

```js
function getBasePath() {
  var path = window.location.pathname;
  var segments = path.split('/').filter(Boolean);
  var isGitHubProjectSite = window.location.hostname.endsWith('.github.io') &&
                            segments.length > 0 &&
                            segments[0] !== 'index.html';
  if (isGitHubProjectSite) { segments = segments.slice(1); }
  var isInDirectory = path.endsWith('/') && path !== '/';
  if (segments.length === 0 || (segments.length === 1 && !isInDirectory)) {
    return '';
  }
  var depth = isInDirectory ? segments.length : segments.length - 1;
  return Array(depth).fill('..').join('/') + '/';
}
```
The two `window.location` fields are passed explicitly, so the model is the
pure function of hostname and pathname that the specification describes. -/

/-- The segments of a pathname: split at every slash and drop the empty
pieces, as `path.split` followed by `filter(Boolean)` does. -/
def pathSegments (path : String) : List (List Char) :=
  (splitChar path.data '/').filter (fun s => !s.isEmpty)

/-- Whether the hostname ends with the GitHub Pages suffix `.github.io`. -/
def ghHost (hostname : String) : Bool :=
  (".github.io").data.isSuffixOf hostname.data

/-- Whether the pathname ends with a slash (the JavaScript
`path.endsWith` test with a one-character argument). -/
def pathEndsWithSlash (path : String) : Bool :=
  path.data.getLast? == some '/'

/-- The returned relative prefix for a given depth:
`Array(depth).fill('..').join('/') + '/'`. -/
def basePathDepthString (depth : Nat) : String :=
  String.intercalate ("/") (List.replicate depth ("..")) ++ ("/")

/-- The tail of `getBasePath` after the segment list and the directory flag
have been computed: the root-page early return and the depth computation. -/
def basePathFromSegments (segments : List (List Char)) (isInDirectory : Bool) : String :=
  if segments.length == 0 || (segments.length == 1 && !isInDirectory) then ""
  else basePathDepthString (if isInDirectory then segments.length else segments.length - 1)

/-- Model of `getBasePath`, as a pure function of
`window.location.hostname` and `window.location.pathname`. -/
def getBasePath (hostname path : String) : String :=
  let segments := pathSegments path
  let isGitHubProjectSite :=
    ghHost hostname && !segments.isEmpty && !(segments.headD [] == ("index.html").data)
  let segments := if isGitHubProjectSite then segments.drop 1 else segments
  let isInDirectory := pathEndsWithSlash path && !(path == ("/"))
  basePathFromSegments segments isInDirectory

/-! ### navList (utility script)

```js
function navList(nav) {
  var links = nav.querySelectorAll('a');
  var result = [];
  links.forEach(function(link) {
    var indent = 0;
    var parent = link.parentElement;
    while (parent && parent !== nav) {
      if (parent.tagName === 'LI') indent++;
      parent = parent.parentElement;
    }
    indent = Math.max(0, indent - 1);
    var href = link.getAttribute('href') || '';
    var target = link.getAttribute('target') || '';
    result.push('<a ' + 'class="link depth-' + indent + '"' + ... );
  });
  return result.join('');
}
```
A link is modelled by its href and target attributes (empty string when the
attribute is missing, matching the JavaScript fallback), its text content,
and the number of `li` ancestors strictly between it and the nav element
(the count the `while` loop computes). -/

/-- One anchor of the nav element, as `navList` sees it. -/
structure NavLink where
  href : String
  target : String
  label : String
  liAncestors : Nat
deriving DecidableEq

/-- The part of the generated anchor markup before the escaped label:
opening tag, depth class, optional target and href attributes, and the
indent span.  `Math.max(0, indent - 1)` is truncated subtraction on `Nat`. -/
def anchorOpen (link : NavLink) : String :=
  let indent := link.liAncestors - 1
  "<a " ++ "class=\"link depth-" ++ toString indent ++ "\"" ++
  (if !(link.target == "") then " target=\"" ++ escapeHtml (some link.target) ++ "\"" else "") ++
  (if !(link.href == "") then " href=\"" ++ escapeHtml (some link.href) ++ "\"" else "") ++
  ">" ++ "<span class=\"indent-" ++ toString indent ++ "\"></span>"

/-- The full markup generated for one link: the opening part, the escaped
text content, and the closing tag. -/
def anchorMarkup (link : NavLink) : String :=
  anchorOpen link ++ escapeHtml (some link.label) ++ "</a>"

/-- Model of `navList`: the concatenation (`result.join` with the empty
separator) of the markup generated for each link in document order. -/
def navList : List NavLink → String
  | [] => ""
  | link :: rest => anchorMarkup link ++ navList rest

/-! ### Slide-in panel (utility script)

The `panel` function wires several handlers around one DOM element.  The
pieces of panel state the claims are about are the class list of the
configured target element (the `visible` state is the presence of
`config.visibleClass` in it), the cleanup callbacks scheduled with
`setTimeout` by `hide`, and the events suppressed by `hide` with
`preventDefault` and `stopPropagation`.  A DOM class list is a set of
tokens, modelled as `Finset String`. -/

/-- The configuration fields of `panel` that the `hide` method reads. -/
structure PanelConfig where
  delay : Nat
  resetScroll : Bool
  resetForms : Bool
  visibleClass : String

/-- The observable state `hide` acts on: the class list of the configured
target element, the number of scheduled cleanup callbacks, and the number
of events whose default action and propagation were suppressed. -/
structure PanelState where
  targetClasses : Finset String
  pendingCleanups : Nat
  suppressedEvents : Nat
deriving DecidableEq

/-- Model of the panel `hide` method:

```js
function hide(event) {
  if (!config.target.classList.contains(config.visibleClass)) { return; }
  if (event) { event.preventDefault(); event.stopPropagation(); }
  config.target.classList.remove(config.visibleClass);
  setTimeout(function() { ... resetScroll / resetForms ... }, config.delay);
}
```
`hasEvent` records whether an event argument was passed. -/
def panelHide (cfg : PanelConfig) (hasEvent : Bool) (s : PanelState) : PanelState :=
  if cfg.visibleClass ∈ s.targetClasses then
    { targetClasses := s.targetClasses.erase cfg.visibleClass
      pendingCleanups := s.pendingCleanups + 1
      suppressedEvents := if hasEvent then s.suppressedEvents + 1 else s.suppressedEvents }
  else s

/-- Model of `classList.toggle`: remove the token when present, add it when
absent. -/
def toggleClass (classes : Finset String) (c : String) : Finset String :=
  if c ∈ classes then classes.erase c else insert c classes

/-- Model of the body click handler that toggles the panel:

```js
body.addEventListener('click', function(event) {
  var link = event.target.closest('a[href="#' + id + '"]');
  if (link) {
    event.preventDefault(); event.stopPropagation();
    config.target.classList.toggle(config.visibleClass);
  }
});
```
`clickHref` is the href of the closest anchor ancestor of the click target
(`none` when the click hit no anchor); the handler toggles exactly when
that href is the fragment reference to the panel id. -/
def bodyToggleClick (panelId : String) (clickHref : Option String)
    (visibleClass : String) (classes : Finset String) : Finset String :=
  match clickHref with
  | some h => if h == "#" ++ panelId then toggleClass classes visibleClass else classes
  | none => classes

/-- Model of the swipe test inside the touch-move handler:

```js
if (config.hideOnSwipe) {
  var result = false;
  var boundary = 20, delta = 50;
  switch (config.side) {
    case 'left':  result = (diffY < boundary && diffY > -boundary) && (diffX > delta); break;
    case 'right': result = (diffY < boundary && diffY > -boundary) && (diffX < -delta); break;
    case 'top':   result = (diffX < boundary && diffX > -boundary) && (diffY > delta); break;
    case 'bottom':result = (diffX < boundary && diffX > -boundary) && (diffY < -delta); break;
  }
  if (result) { ... hide(); }
}
```
The result says whether the gesture triggers `hide`. -/
def swipeHides (hideOnSwipe : Bool) (side : Option String) (diffX diffY : Int) : Bool :=
  if hideOnSwipe then
    match side with
    | some s =>
      if s == "left" then (decide (diffY < 20) && decide (diffY > -20)) && decide (diffX > 50)
      else if s == "right" then (decide (diffY < 20) && decide (diffY > -20)) && decide (diffX < -50)
      else if s == "top" then (decide (diffX < 20) && decide (diffX > -20)) && decide (diffY > 50)
      else if s == "bottom" then (decide (diffX < 20) && decide (diffX > -20)) && decide (diffY < -50)
      else false
    | none => false
  else false

/-- Modelled from the specification words for claim C7, which ask for a
trigger at "at least 50px" of primary-direction displacement: identical to
`swipeHides` except that the primary-direction comparisons are inclusive. -/
def specSwipeTriggers (hideOnSwipe : Bool) (side : Option String) (diffX diffY : Int) : Bool :=
  if hideOnSwipe then
    match side with
    | some s =>
      if s == "left" then (decide (diffY < 20) && decide (diffY > -20)) && decide (diffX ≥ 50)
      else if s == "right" then (decide (diffY < 20) && decide (diffY > -20)) && decide (diffX ≤ -50)
      else if s == "top" then (decide (diffX < 20) && decide (diffX > -20)) && decide (diffY ≥ 50)
      else if s == "bottom" then (decide (diffX < 20) && decide (diffX > -20)) && decide (diffY ≤ -50)
      else false
    | none => false
  else false

/-! ### Homepage scroll spy (navigation component)

```js
function onScroll() {
  var scrollPos = window.scrollY + window.innerHeight * 0.3;
  var foundSection = null;
  sections.forEach(function(section) {
    var top = section.offsetTop;
    var bottom = top + section.offsetHeight;
    if (scrollPos >= top && scrollPos < bottom) {
      foundSection = section.getAttribute('id');
    }
  });
  updateCurrentSection(foundSection);
}
```
Layout coordinates are modelled as rationals so the probe point
`scrollY + 0.3 * viewportHeight` is exact. -/

/-- One homepage section as the scroll spy sees it: its id attribute and
its vertical extent. -/
structure SectionBox where
  id : String
  offsetTop : Rat
  offsetHeight : Rat
deriving DecidableEq

/-- Whether the probe position lies in the vertical range of a section,
the test of the `if` inside the loop. -/
def sectionHit (pos : Rat) (s : SectionBox) : Bool :=
  decide (pos ≥ s.offsetTop) && decide (pos < s.offsetTop + s.offsetHeight)

/-- The probe point of the scroll spy:
`window.scrollY + window.innerHeight * 0.3`. -/
def probePoint (scrollY innerHeight : Rat) : Rat :=
  scrollY + innerHeight * (3 / 10)

/-- Model of the section search in `onScroll`: the loop over the sections
in document order, each hit overwriting the previously found id. -/
def onScrollFound (sections : List SectionBox) (pos : Rat) : Option String :=
  sections.foldl (fun found s => if sectionHit pos s then some s.id else found) none

/-- Modelled from the specification words for claim C2, which say the
first matching section in document order wins: the id of the first section
whose range contains the probe. -/
def specFirstMatchSection (sections : List SectionBox) (pos : Rat) : Option String :=
  (sections.find? (sectionHit pos)).map (fun s => s.id)

/-! ### updateCurrentSection (navigation component)

```js
function updateCurrentSection(id) {
  if (currentSection === id) return;
  currentSection = id;
  navLinks.forEach(function(link) { link.parentElement.classList.remove('current'); });
  if (id) {
    var activeLink = navElement.querySelector('a[href="#' + id + '"]');
    if (activeLink) { activeLink.parentElement.classList.add('current'); }
  }
  var navPanel = document.getElementById('navPanel');
  if (navPanel) {
    var mobileLinks = navPanel.querySelectorAll('.link');
    mobileLinks.forEach(function(link) { link.classList.remove('current'); });
    if (id) {
      var activeMobileLink = navPanel.querySelector('.link[href="#' + id + '"]');
      if (activeMobileLink) { activeMobileLink.classList.add('current'); }
    }
  }
}
```
The desktop nav is modelled as the list of its anchors in document order,
each with its href, whether it carries the `scrolly` class (the
`navLinks` collection is `querySelectorAll('a.scrolly')`), and the index of
its parent list item.  The DOM state tracked is which list items, and which
mobile panel links, currently carry the `current` class, as finite sets of
indices, together with the `currentSection` closure variable. -/

/-- One anchor of the desktop nav element. -/
structure NavAnchor where
  href : String
  scrolly : Bool
  parentLi : Nat
deriving DecidableEq

/-- The scroll spy state: the set of desktop list items carrying
`current`, the set of mobile panel links carrying `current`, and the
`currentSection` variable. -/
structure SpyState where
  liCurrent : Finset Nat
  mobileCurrent : Finset Nat
  currentSection : Option String
deriving DecidableEq

/-- The parent list items of the `a.scrolly` anchors, the items the
clearing loop of `updateCurrentSection` touches. -/
def scrollyParents (anchors : List NavAnchor) : Finset Nat :=
  ((anchors.filter (fun a => a.scrolly)).map (fun a => a.parentLi)).toFinset

/-- JavaScript truthiness of the id argument (`null` and the empty string
are falsy). -/
def idTruthy : Option String → Bool
  | none => false
  | some s => !(s == "")

/-- Model of `updateCurrentSection`.  `mobileHrefs` lists the href
attributes of the mobile panel `.link` elements in document order. -/
def updateCurrentSection (anchors : List NavAnchor) (mobileHrefs : List String)
    (s : SpyState) (id : Option String) : SpyState :=
  if s.currentSection == id then s
  else
    let cleared := s.liCurrent \ scrollyParents anchors
    let lis :=
      if idTruthy id then
        match anchors.find? (fun a => a.href == "#" ++ id.getD "") with
        | some a => insert a.parentLi cleared
        | none => cleared
      else cleared
    let mob : Finset Nat :=
      if idTruthy id then
        match mobileHrefs.findIdx? (fun h => h == "#" ++ id.getD "") with
        | some j => {j}
        | none => (∅ : Finset Nat)
      else (∅ : Finset Nat)
    { liCurrent := lis, mobileCurrent := mob, currentSection := id }

/-- The scroll spy state when the homepage has finished loading: the nav
builder emits every list item without the `current` class on the homepage,
`navList` emits the mobile links without it, and the closure starts with
`var currentSection = null`. -/
def initialSpyState : SpyState :=
  { liCurrent := ∅, mobileCurrent := ∅, currentSection := none }

/-- The four nav list items the navigation component builds on the
homepage, with their anchors: About and Contact are `scrolly` fragment
links, Services and Blog are plain page links. -/
def homepageNavAnchors : List NavAnchor :=
  [{ href := "#about", scrolly := true, parentLi := 0 },
   { href := "services/", scrolly := false, parentLi := 1 },
   { href := "#contact", scrolly := true, parentLi := 2 },
   { href := "blog/index.html", scrolly := false, parentLi := 3 }]

/-- The href attributes of the mobile panel links `navList` generates from
the homepage nav. -/
def homepageMobileLinkHrefs : List String :=
  ["#about", "services/", "#contact", "blog/index.html"]

/-- The invariant the scroll spy maintains: every marked desktop list item
is the parent of some `scrolly` anchor, and at most one desktop item and
one mobile link are marked. -/
def spyInv (anchors : List NavAnchor) (s : SpyState) : Prop :=
  s.liCurrent ⊆ scrollyParents anchors ∧ s.liCurrent.card ≤ 1 ∧ s.mobileCurrent.card ≤ 1

/-! ### Structured data emitter (blog meta script)

```js
var headline = article.dataset.headline;
var datePublished = article.dataset.datePublished;
var dateModified = article.dataset.dateModified || datePublished;
var description = article.dataset.description;
var image = article.dataset.image;
if (!headline || !datePublished) { console.warn(...); return; }
var structuredData = { ..., "description": description || "" };
if (image) { structuredData.image = image; }
```
A data attribute is `Option String` (`none` when absent). -/

/-- JavaScript truthiness of an optional string value. -/
def truthy : Option String → Bool
  | none => false
  | some s => !(s == "")

/-- The JavaScript `a || b` on two optional string values: `b` when `a` is
falsy, `a` otherwise. -/
def jsOrElse (a b : Option String) : Option String :=
  if truthy a then a else b

/-- The data attributes of the blog article element. -/
structure ArticleData where
  headline : Option String
  datePublished : Option String
  dateModified : Option String
  description : Option String
  image : Option String
deriving DecidableEq

/-- The variable fields of the emitted JSON-LD object (the `@context`,
`@type`, author name, publisher and logo fields are constants in the
source). -/
structure BlogPosting where
  headline : String
  datePublished : String
  dateModified : String
  authorUrl : String
  description : String
  image : Option String
deriving DecidableEq

/-- Model of the structured data emission: `none` when the handler returns
without emitting, otherwise the emitted object.  `authorLinkedin` is the
LinkedIn URL taken from the site configuration. -/
def emitStructuredData (authorLinkedin : String) (a : ArticleData) : Option BlogPosting :=
  let dateModified := jsOrElse a.dateModified a.datePublished
  if !truthy a.headline || !truthy a.datePublished then none
  else some
    { headline := a.headline.getD ""
      datePublished := a.datePublished.getD ""
      dateModified := dateModified.getD ""
      authorUrl := authorLinkedin
      description := (jsOrElse a.description (some "")).getD ""
      image := if truthy a.image then a.image else none }

/-! ### Demo inputs used by the witness theorems -/

/-- A nav link whose text content is a script tag. -/
def demoScriptLink : NavLink :=
  { href := "#about", target := "", label := "<script>", liAncestors := 1 }

/-- A one-link nav containing `demoScriptLink`. -/
def demoNavLinks : List NavLink := [demoScriptLink]

/-- The panel configuration `main.js` passes for the mobile nav panel
(the fields `hide` reads). -/
def demoPanelConfig : PanelConfig :=
  { delay := 0, resetScroll := true, resetForms := true, visibleClass := "navPanel-visible" }

/-- A panel state in which the target does not carry the visible class. -/
def demoHiddenPanelState : PanelState :=
  { targetClasses := ∅, pendingCleanups := 0, suppressedEvents := 0 }

/-- Two overlapping homepage sections occupying the same vertical range. -/
def overlapSections : List SectionBox :=
  [{ id := "alpha", offsetTop := 0, offsetHeight := 100 },
   { id := "beta", offsetTop := 0, offsetHeight := 100 }]

/-- A blog article carrying a headline and a publication date but no
modification date. -/
def demoArticle : ArticleData :=
  { headline := some "X", datePublished := some "2020-01-01",
    dateModified := none, description := none, image := none }

/-! ### Helper lemmas about replaceChar and escapeHtml -/

theorem mem_replaceChar {x c : Char} {r : List Char} :
    ∀ {l : List Char}, x ∈ replaceChar l c r → (x ∈ l ∧ x ≠ c) ∨ x ∈ r := by
  intro l
  induction l with
  | nil => intro h; simp [replaceChar] at h
  | cons y ys ih =>
    intro h
    simp only [replaceChar, List.mem_append] at h
    rcases h with h | h
    · by_cases hyc : y = c
      · rw [if_pos hyc] at h
        exact Or.inr h
      · rw [if_neg hyc] at h
        simp only [List.mem_singleton] at h
        subst h
        exact Or.inl ⟨List.mem_cons_self .., hyc⟩
    · rcases ih h with ⟨hl, hne⟩ | hr
      · exact Or.inl ⟨List.mem_cons_of_mem _ hl, hne⟩
      · exact Or.inr hr

theorem not_mem_replaceChar_self {c : Char} {r : List Char} (h : c ∉ r) (l : List Char) :
    c ∉ replaceChar l c r := by
  intro hm
  rcases mem_replaceChar hm with ⟨_, hne⟩ | hr
  · exact hne rfl
  · exact h hr

theorem not_mem_replaceChar {x c : Char} {r l : List Char} (hl : x ∉ l) (hr : x ∉ r) :
    x ∉ replaceChar l c r := by
  intro hm
  rcases mem_replaceChar hm with ⟨h1, _⟩ | h2
  · exact hl h1
  · exact hr h2

theorem lt_not_mem_escapeHtmlData (l : List Char) : '<' ∉ escapeHtmlData l :=
  not_mem_replaceChar
    (not_mem_replaceChar
      (not_mem_replaceChar (not_mem_replaceChar_self (by decide) _) (by decide))
      (by decide))
    (by decide)

theorem gt_not_mem_escapeHtmlData (l : List Char) : '>' ∉ escapeHtmlData l :=
  not_mem_replaceChar
    (not_mem_replaceChar (not_mem_replaceChar_self (by decide) _) (by decide))
    (by decide)

theorem quote_not_mem_escapeHtmlData (l : List Char) : quoteChar ∉ escapeHtmlData l :=
  not_mem_replaceChar (not_mem_replaceChar_self (by decide) _) (by decide)

theorem apos_not_mem_escapeHtmlData (l : List Char) : aposChar ∉ escapeHtmlData l :=
  not_mem_replaceChar_self (by decide) _

theorem markup_not_mem_escapeHtml (s : Option String) :
    '<' ∉ (escapeHtml s).data ∧ '>' ∉ (escapeHtml s).data ∧
      quoteChar ∉ (escapeHtml s).data ∧ aposChar ∉ (escapeHtml s).data := by
  match s with
  | none => exact ⟨by decide, by decide, by decide, by decide⟩
  | some t =>
    by_cases h : t == ""
    · simp only [escapeHtml, h, if_pos]
      exact ⟨by decide, by decide, by decide, by decide⟩
    · simp only [escapeHtml, h, if_neg, Bool.false_eq_true]
      exact ⟨lt_not_mem_escapeHtmlData _, gt_not_mem_escapeHtmlData _,
        quote_not_mem_escapeHtmlData _, apos_not_mem_escapeHtmlData _⟩

/-! ### Helper lemmas about splitChar and string equality tests -/

theorem splitChar_ne_nil (l : List Char) (c : Char) : splitChar l c ≠ [] := by
  cases l with
  | nil => simp [splitChar]
  | cons x xs =>
    simp only [splitChar]
    by_cases h : x = c
    · simp [h]
    · rw [if_neg h]
      cases hs : splitChar xs c with
      | nil => simp
      | cons ys rest => simp

theorem splitChar_cons_sep (l : List Char) (c : Char) :
    splitChar (c :: l) c = [] :: splitChar l c := by
  simp [splitChar]

theorem splitChar_cons_ne {x c : Char} (h : x ≠ c) (l : List Char) :
    splitChar (x :: l) c = (x :: (splitChar l c).headD []) :: (splitChar l c).tail := by
  simp only [splitChar, if_neg h]
  cases hs : splitChar l c with
  | nil => exact absurd hs (splitChar_ne_nil l c)
  | cons ys rest => simp

theorem splitChar_append_sepFree {p : List Char} {c : Char}
    (hp : ∀ x ∈ p, x ≠ c) (l : List Char) :
    splitChar (p ++ l) c = (p ++ (splitChar l c).headD []) :: (splitChar l c).tail := by
  induction p with
  | nil =>
    simp only [List.nil_append]
    cases hs : splitChar l c with
    | nil => exact absurd hs (splitChar_ne_nil l c)
    | cons ys rest => simp [hs]
  | cons x p ih =>
    have hx : x ≠ c := hp x (List.mem_cons_self ..)
    have hp2 : ∀ y ∈ p, y ≠ c := fun y hy => hp y (List.mem_cons_of_mem _ hy)
    rw [List.cons_append, splitChar_cons_ne hx, ih hp2]
    simp

theorem string_beq_false_of_data_ne {a b : String} (h : a.data ≠ b.data) :
    (a == b) = false := by
  apply beq_eq_false_iff_ne.mpr
  intro e
  exact h (congrArg String.data e)

/-! ### Helper lemmas for the panel toggle and the scroll spy -/

theorem toggleClass_toggleClass (classes : Finset String) (c : String) :
    toggleClass (toggleClass classes c) c = classes := by
  by_cases h : c ∈ classes
  · have h1 : toggleClass classes c = classes.erase c := if_pos h
    rw [h1, toggleClass, if_neg (Finset.not_mem_erase c classes)]
    exact Finset.insert_erase h
  · have h1 : toggleClass classes c = insert c classes := if_neg h
    rw [h1, toggleClass, if_pos (Finset.mem_insert_self c classes)]
    exact Finset.erase_insert h

theorem iterate_even_fixed {α : Type} (f : α → α) (hf : ∀ x, f (f x) = x)
    (n : Nat) (hn : Even n) (x : α) : f^[n] x = x := by
  obtain ⟨k, rfl⟩ := hn
  induction k with
  | zero => rfl
  | succ m ih =>
    have hrw : m + 1 + (m + 1) = (m + m) + 2 := by omega
    rw [hrw, Function.iterate_add_apply]
    have h2 : f^[2] x = x := hf x
    rw [h2, ih]

theorem foldl_last_found (pos : Rat) (l : List SectionBox) (a : Option String) :
    l.foldl (fun found s => if sectionHit pos s then some s.id else found) a
      = (l.reverse.find? (sectionHit pos)).elim a (fun s => some s.id) := by
  induction l generalizing a with
  | nil => rfl
  | cons s t ih =>
    rw [List.foldl_cons, ih]
    rw [List.reverse_cons, List.find?_append]
    cases hf : t.reverse.find? (sectionHit pos) with
    | some u => rfl
    | none =>
      simp only [Option.none_or]
      cases hs : sectionHit pos s with
      | true => simp [List.find?, hs]
      | false => simp [List.find?, hs]

theorem fragment_anchor_scrolly {anchors : List NavAnchor}
    (H1 : ∀ a ∈ anchors, a.href.data.headD ' ' = '#' → a.scrolly = true)
    {a : NavAnchor} {i : String}
    (hfind : anchors.find? (fun a => a.href == "#" ++ i) = some a) :
    a ∈ anchors ∧ a.scrolly = true := by
  have hmem : a ∈ anchors := List.mem_of_find?_eq_some hfind
  have hp := List.find?_some hfind
  simp only [beq_iff_eq] at hp
  have heq : a.href = "#" ++ i := hp
  have hhead : a.href.data.headD ' ' = '#' := by
    rw [heq, String.data_append]
    rfl
  exact ⟨hmem, H1 a hmem hhead⟩

theorem updateCurrentSection_inv (anchors : List NavAnchor) (mobileHrefs : List String)
    (H1 : ∀ a ∈ anchors, a.href.data.headD ' ' = '#' → a.scrolly = true)
    (s : SpyState) (id : Option String) (hs : spyInv anchors s) :
    spyInv anchors (updateCurrentSection anchors mobileHrefs s id) := by
  obtain ⟨hsub, hcard, hmob⟩ := hs
  by_cases heq : (s.currentSection == id) = true
  · simpa [updateCurrentSection, heq] using ⟨hsub, hcard, hmob⟩
  · rw [Bool.not_eq_true] at heq
    have hcleared : s.liCurrent \ scrollyParents anchors = ∅ :=
      Finset.sdiff_eq_empty_iff_subset.mpr hsub
    simp only [updateCurrentSection, heq, Bool.false_eq_true, if_false, hcleared]
    refine ⟨?_, ?_, ?_⟩
    · by_cases ht : idTruthy id = true
      · simp only [ht, if_pos]
        cases hfind : anchors.find? (fun a => a.href == "#" ++ id.getD "") with
        | none => simp
        | some a =>
          simp only
          obtain ⟨hmem, hsc⟩ := fragment_anchor_scrolly H1 hfind
          have : a.parentLi ∈ scrollyParents anchors := by
            rw [scrollyParents]
            rw [List.mem_toFinset, List.mem_map]
            exact ⟨a, List.mem_filter.mpr ⟨hmem, hsc⟩, rfl⟩
          simpa using this
      · rw [Bool.not_eq_true] at ht
        simp [ht]
    · by_cases ht : idTruthy id = true
      · simp only [ht, if_pos]
        cases hfind : anchors.find? (fun a => a.href == "#" ++ id.getD "") with
        | none => simp
        | some a => simp
      · rw [Bool.not_eq_true] at ht
        simp [ht]
    · by_cases ht : idTruthy id = true
      · simp only [ht, if_pos]
        cases hfind : mobileHrefs.findIdx? (fun h => h == "#" ++ id.getD "") with
        | none => simp
        | some j => simp
      · rw [Bool.not_eq_true] at ht
        simp [ht]

theorem foldl_spy_inv (anchors : List NavAnchor) (mobileHrefs : List String)
    (H1 : ∀ a ∈ anchors, a.href.data.headD ' ' = '#' → a.scrolly = true)
    (ids : List (Option String)) (s : SpyState) (hs : spyInv anchors s) :
    spyInv anchors (ids.foldl (updateCurrentSection anchors mobileHrefs) s) := by
  induction ids generalizing s with
  | nil => exact hs
  | cons i t ih =>
    rw [List.foldl_cons]
    exact ih _ (updateCurrentSection_inv anchors mobileHrefs H1 s i hs)

/-! ### Claim theorems -/

/-- C1 counterexample: on a non GitHub Pages host, `getBasePath` returns
neither the empty string for `/blog/index.html` nor `../../` for
`/blog/2024/01/post.html`, contrary to the enumeration in the claim (the
final filename counts as a path segment, so the depths are 1 and 3). -/
theorem claim_C1_counterexample :
    getBasePath ("example.com") ("/blog/index.html") ≠ "" ∧
    getBasePath ("example.com") ("/blog/2024/01/post.html") ≠ "../../" := by
  decide

/-- C1 (amended): for every non GitHub Pages hostname, `getBasePath`
returns `../` for path `/blog/index.html`, `../` for path `/blog/`, and
`../../../` for path `/blog/2024/01/post.html`. -/
theorem claim_C1 (hostname : String) (h : ghHost hostname = false) :
    getBasePath hostname ("/blog/index.html") = "../" ∧
    getBasePath hostname ("/blog/") = "../" ∧
    getBasePath hostname ("/blog/2024/01/post.html") = "../../../" := by
  refine ⟨?_, ?_, ?_⟩ <;> simp only [getBasePath, h, Bool.false_and] <;> decide

/-- C1 witness: the amended statement evaluated at the hostname
`example.com`. -/
theorem claim_C1_witness :
    ghHost ("example.com") = false ∧
    getBasePath ("example.com") ("/blog/index.html") = "../" ∧
    getBasePath ("example.com") ("/blog/") = "../" ∧
    getBasePath ("example.com") ("/blog/2024/01/post.html") = "../../../" :=
  ⟨by decide, claim_C1 ("example.com") (by decide)⟩

/-- C2 counterexample: with two overlapping sections both containing the
probe point, the loop in `onScroll` selects the second section, not the
first one that the claim announces. -/
theorem claim_C2_counterexample :
    onScrollFound overlapSections (probePoint (50) (0)) ≠
      specFirstMatchSection overlapSections (probePoint (50) (0)) ∧
    onScrollFound overlapSections (probePoint (50) (0)) = some ("beta") := by
  have hp : probePoint (50) (0) = 50 := by norm_num [probePoint]
  have ha : sectionHit 50 { id := "alpha", offsetTop := 0, offsetHeight := 100 } = true := by
    simp only [sectionHit, Bool.and_eq_true, decide_eq_true_eq]
    norm_num
  have hb : sectionHit 50 { id := "beta", offsetTop := 0, offsetHeight := 100 } = true := by
    simp only [sectionHit, Bool.and_eq_true, decide_eq_true_eq]
    norm_num
  have hfound : onScrollFound overlapSections (probePoint (50) (0)) = some ("beta") := by
    rw [hp]
    simp [onScrollFound, overlapSections, ha, hb]
  have hfirst : specFirstMatchSection overlapSections (probePoint (50) (0)) = some ("alpha") := by
    rw [hp]
    simp [specFirstMatchSection, overlapSections, List.find?, ha]
  refine ⟨?_, hfound⟩
  rw [hfound, hfirst]
  decide

/-- C2 (amended): for every list of sections and every scroll position,
the section selected as current is the last section in document order
whose vertical range contains the probe point
`scrollY + 0.3 * viewportHeight` (the loop overwrites the found id on
every hit and never breaks), hence when several overlapping sections
contain the probe the last matching one wins. -/
theorem claim_C2 (sections : List SectionBox) (scrollY innerHeight : Rat) :
    onScrollFound sections (probePoint scrollY innerHeight) =
      (sections.reverse.find? (sectionHit (probePoint scrollY innerHeight))).map
        (fun s => s.id) := by
  rw [onScrollFound, foldl_last_found]
  cases (sections.reverse.find? (sectionHit (probePoint scrollY innerHeight))) with
  | none => rfl
  | some s => rfl

/-- C4: when the configured target does not carry the visible class,
`hide` is a no-op: the class list, the scheduled cleanup callbacks and the
suppressed events are all unchanged, and a second call is equally a
no-op. -/
theorem claim_C4 (cfg : PanelConfig) (e1 e2 : Bool) (s : PanelState)
    (h : cfg.visibleClass ∉ s.targetClasses) :
    panelHide cfg e1 s = s ∧ panelHide cfg e2 (panelHide cfg e1 s) = s := by
  have h1 : panelHide cfg e1 s = s := by rw [panelHide, if_neg h]
  refine ⟨h1, ?_⟩
  rw [h1, panelHide, if_neg h]

/-- C4 witness: the mobile nav panel configuration with an already hidden
target. -/
theorem claim_C4_witness :
    panelHide demoPanelConfig true demoHiddenPanelState = demoHiddenPanelState ∧
    panelHide demoPanelConfig false (panelHide demoPanelConfig true demoHiddenPanelState) =
      demoHiddenPanelState :=
  claim_C4 demoPanelConfig true false demoHiddenPanelState (by decide)

/-- C5: a click whose closest anchor points at the panel id toggles the
visible class on the target, and an even number of such clicks returns the
target class list, and with it the visible state, to its original value. -/
theorem claim_C5 (panelId visibleClass : String) (clickHref : Option String)
    (classes : Finset String) (n : Nat)
    (hhref : clickHref = some ("#" ++ panelId)) (hn : Even n) :
    (fun cl => bodyToggleClick panelId clickHref visibleClass cl)^[n] classes = classes := by
  subst hhref
  have hstep : (fun cl => bodyToggleClick panelId (some ("#" ++ panelId)) visibleClass cl)
      = fun cl => toggleClass cl visibleClass := by
    funext cl
    simp [bodyToggleClick]
  rw [hstep]
  exact iterate_even_fixed _ (fun cl => toggleClass_toggleClass cl visibleClass) n hn classes

/-- C5 witness: two toggle clicks on the mobile nav panel anchor starting
from a hidden body leave the body class list unchanged. -/
theorem claim_C5_witness :
    (fun cl => bodyToggleClick ("navPanel") (some ("#navPanel")) ("navPanel-visible") cl)^[2]
      (∅ : Finset String) = ∅ :=
  claim_C5 ("navPanel") ("navPanel-visible") (some ("#navPanel")) ∅ 2 (by decide) (by decide)

/-- C6: starting from the freshly built homepage state (no item marked,
`currentSection` null) and for any nav whose fragment anchors all carry
the `scrolly` class (as the homepage nav builder guarantees), after any
sequence of scroll spy updates at most one desktop nav list item and at
most one mobile panel link carry the `current` class. -/
theorem claim_C6 (anchors : List NavAnchor) (mobileHrefs : List String)
    (H1 : ∀ a ∈ anchors, a.href.data.headD ' ' = '#' → a.scrolly = true)
    (ids : List (Option String)) :
    ((ids.foldl (updateCurrentSection anchors mobileHrefs) initialSpyState).liCurrent.card ≤ 1) ∧
    ((ids.foldl (updateCurrentSection anchors mobileHrefs) initialSpyState).mobileCurrent.card ≤ 1) := by
  have h0 : spyInv anchors initialSpyState := by
    refine ⟨?_, ?_, ?_⟩ <;> simp [initialSpyState]
  have h := foldl_spy_inv anchors mobileHrefs H1 ids initialSpyState h0
  exact ⟨h.2.1, h.2.2⟩

/-- C6 witness: a concrete scroll sequence over the homepage nav. -/
theorem claim_C6_witness :
    (([some ("about"), some ("contact"), none].foldl
        (updateCurrentSection homepageNavAnchors homepageMobileLinkHrefs)
        initialSpyState).liCurrent.card ≤ 1) ∧
    (([some ("about"), some ("contact"), none].foldl
        (updateCurrentSection homepageNavAnchors homepageMobileLinkHrefs)
        initialSpyState).mobileCurrent.card ≤ 1) :=
  claim_C6 homepageNavAnchors homepageMobileLinkHrefs (by decide)
    [some ("about"), some ("contact"), none]

/-- C7 counterexample: with `hideOnSwipe` set, side `left` and a purely
horizontal swipe of exactly 50 pixels, the specification predicate (at
least 50 pixels) triggers but the code does not (its comparison is
strict). -/
theorem claim_C7_counterexample :
    specSwipeTriggers true (some ("left")) 50 0 = true ∧
    swipeHides true (some ("left")) 50 0 = false := by
  decide

/-- C7 (amended): the swipe triggers `hide` exactly when the orthogonal
displacement is strictly within 20 pixels and the primary-direction
displacement is strictly greater than 50 pixels in the direction matching
the configured side; with `hideOnSwipe` unset, a null side, or a side
outside the four recognized values, a swipe never triggers `hide`. -/
theorem claim_C7 (side : Option String) (dx dy : Int) :
    (swipeHides false side dx dy = false) ∧
    (swipeHides true none dx dy = false) ∧
    (∀ s : String, s ≠ "left" → s ≠ "right" → s ≠ "top" → s ≠ "bottom" →
      swipeHides true (some s) dx dy = false) ∧
    (swipeHides true (some ("left")) dx dy
      = ((decide (dy < 20) && decide (dy > -20)) && decide (dx > 50))) ∧
    (swipeHides true (some ("right")) dx dy
      = ((decide (dy < 20) && decide (dy > -20)) && decide (dx < -50))) ∧
    (swipeHides true (some ("top")) dx dy
      = ((decide (dx < 20) && decide (dx > -20)) && decide (dy > 50))) ∧
    (swipeHides true (some ("bottom")) dx dy
      = ((decide (dx < 20) && decide (dx > -20)) && decide (dy < -50))) := by
  refine ⟨rfl, rfl, ?_, rfl, rfl, rfl, rfl⟩
  intro s h1 h2 h3 h4
  simp only [swipeHides, if_pos]
  rw [string_beq_false_of_data_ne (fun e => h1 (String.ext e)),
    string_beq_false_of_data_ne (fun e => h2 (String.ext e)),
    string_beq_false_of_data_ne (fun e => h3 (String.ext e)),
    string_beq_false_of_data_ne (fun e => h4 (String.ext e))]
  simp

/-- C7 witness: a 60 pixel horizontal swipe triggers for side `left` but a
diagonal side name never triggers. -/
theorem claim_C7_witness :
    swipeHides true (some ("diagonal")) 60 0 = false ∧
    swipeHides true (some ("left")) 60 0 = true := by
  constructor
  · exact (claim_C7 (some ("diagonal")) 60 0).2.2.1 ("diagonal")
      (by decide) (by decide) (by decide) (by decide)
  · have h := (claim_C7 (some ("left")) 60 0).2.2.2.1
    rw [h]
    decide

/-- C8: the structured data block is emitted exactly when both the
headline and the publication date attributes are present and non-empty,
and when the modification date attribute is absent the emitted
modification date equals the emitted publication date. -/
theorem claim_C8 (url : String) (a : ArticleData) :
    ((emitStructuredData url a).isSome = (truthy a.headline && truthy a.datePublished)) ∧
    (a.dateModified = none →
      (emitStructuredData url a).map (fun sd => sd.dateModified) =
        (emitStructuredData url a).map (fun sd => sd.datePublished)) := by
  constructor
  · cases h1 : truthy a.headline <;> cases h2 : truthy a.datePublished <;>
      simp [emitStructuredData, h1, h2]
  · intro hdm
    simp only [emitStructuredData, hdm, jsOrElse, truthy]
    split
    · rfl
    · rfl

/-- C8 witness: the demo article with headline `X`, publication date
`2020-01-01` and no modification date is emitted, with equal modification
and publication dates. -/
theorem claim_C8_witness :
    ((emitStructuredData ("url") demoArticle).isSome = true) ∧
    ((emitStructuredData ("url") demoArticle).map (fun sd => sd.dateModified) =
      (emitStructuredData ("url") demoArticle).map (fun sd => sd.datePublished)) := by
  constructor
  · rw [(claim_C8 ("url") demoArticle).1]
    decide
  · exact (claim_C8 ("url") demoArticle).2 rfl

/-- C9: for every nav and every link in it, the markup `navList` generates
contains the escaped form of the link label (the generated text splits
around it), that escaped form contains no raw angle bracket, double quote
or apostrophe character, and the character sequence of a script tag cannot
occur anywhere inside it. -/
theorem claim_C9 (links : List NavLink) (link : NavLink) (h : link ∈ links) :
    (∃ pre post : List Char,
      (navList links).data = pre ++ (escapeHtml (some link.label)).data ++ post) ∧
    ('<' ∉ (escapeHtml (some link.label)).data) ∧
    ('>' ∉ (escapeHtml (some link.label)).data) ∧
    (∀ pre post : List Char,
      (escapeHtml (some link.label)).data ≠ pre ++ ("<script>").data ++ post) := by
  refine ⟨?_, (markup_not_mem_escapeHtml _).1, (markup_not_mem_escapeHtml _).2.1, ?_⟩
  · induction links with
    | nil => cases h
    | cons x rest ih =>
      rcases List.mem_cons.mp h with rfl | hmem
      · refine ⟨(anchorOpen link).data, ("</a>").data ++ (navList rest).data, ?_⟩
        show (anchorMarkup link ++ navList rest).data = _
        rw [String.data_append, anchorMarkup, String.data_append, String.data_append]
        simp [List.append_assoc]
      · obtain ⟨pre, post, hp⟩ := ih hmem
        refine ⟨(anchorMarkup x).data ++ pre, post, ?_⟩
        show (anchorMarkup x ++ navList rest).data = _
        rw [String.data_append, hp]
        simp [List.append_assoc]
  · intro pre post heq
    have hmemlt : '<' ∈ (escapeHtml (some link.label)).data := by
      rw [heq]
      refine List.mem_append.mpr (Or.inl ?_)
      refine List.mem_append.mpr (Or.inr ?_)
      decide
    exact (markup_not_mem_escapeHtml (some link.label)).1 hmemlt

/-- C9 witness: the one-link nav whose label is a script tag. -/
theorem claim_C9_witness :
    (∃ pre post : List Char,
      (navList demoNavLinks).data = pre ++ (escapeHtml (some demoScriptLink.label)).data ++ post) ∧
    ('<' ∉ (escapeHtml (some demoScriptLink.label)).data) ∧
    ('>' ∉ (escapeHtml (some demoScriptLink.label)).data) ∧
    (∀ pre post : List Char,
      (escapeHtml (some demoScriptLink.label)).data ≠ pre ++ ("<script>").data ++ post) :=
  claim_C9 demoNavLinks demoScriptLink (by decide)

/-- C10: `escapeHtml` returns the empty string on every falsy input (null,
undefined and the empty string), and for every string input its result
contains no raw angle bracket, double quote or apostrophe character. -/
theorem claim_C10 :
    (escapeHtml none = "") ∧ (escapeHtml (some ("")) = "") ∧
    ∀ s : String,
      '<' ∉ (escapeHtml (some s)).data ∧ '>' ∉ (escapeHtml (some s)).data ∧
      quoteChar ∉ (escapeHtml (some s)).data ∧ aposChar ∉ (escapeHtml (some s)).data :=
  ⟨rfl, rfl, fun s => markup_not_mem_escapeHtml (some s)⟩

theorem getLast?_append_cons (l : List Char) (r0 : Char) (rtail : List Char) :
    (l ++ (r0 :: rtail)).getLast? = (r0 :: rtail).getLast? := by
  rw [List.getLast?_append]
  cases he : (r0 :: rtail).getLast? with
  | none => exact absurd (List.getLast?_eq_none_iff.mp he) (by simp)
  | some v => rfl

/-- C3: on a GitHub Pages host, the leading project folder segment of the
pathname is dropped before the depth computation, so `getBasePath` on
`/my-project/<rest>` there agrees with `getBasePath` on `/<rest>` on any
other host, for every remainder `rest`. -/
theorem claim_C3 (hostGH hostOther rest : String)
    (hg : ghHost hostGH = true) (hn : ghHost hostOther = false) :
    getBasePath hostGH (("/my-project/") ++ rest) = getBasePath hostOther (("/") ++ rest) := by
  have hd1 : (("/my-project/") ++ rest).data
      = '/' :: (("my-project").data ++ ('/' :: rest.data)) := by
    rw [String.data_append]
    have h : ("/my-project/").data = '/' :: (("my-project").data ++ ['/']) := by decide
    rw [h]
    simp
  have hd2 : (("/") ++ rest).data = '/' :: rest.data := by
    rw [String.data_append, show ("/").data = ['/'] from by decide]
    rfl
  have hsplit1 : splitChar (("/my-project/") ++ rest).data '/'
      = [] :: ("my-project").data :: splitChar rest.data '/' := by
    rw [hd1, splitChar_cons_sep,
      splitChar_append_sepFree (p := ("my-project").data) (by decide) ('/' :: rest.data),
      splitChar_cons_sep]
    simp
  have hsplit2 : splitChar (("/") ++ rest).data '/' = [] :: splitChar rest.data '/' := by
    rw [hd2, splitChar_cons_sep]
  have hmp : (!(("my-project").data).isEmpty) = true := by decide
  have hseg1 : pathSegments (("/my-project/") ++ rest)
      = ("my-project").data :: (splitChar rest.data '/').filter (fun s => !s.isEmpty) := by
    rw [pathSegments, hsplit1, List.filter_cons, List.filter_cons]
    simp [hmp]
  have hseg2 : pathSegments (("/") ++ rest)
      = (splitChar rest.data '/').filter (fun s => !s.isEmpty) := by
    rw [pathSegments, hsplit2, List.filter_cons]
    simp
  have hhead : ((("my-project").data :: (splitChar rest.data '/').filter
      (fun s => !s.isEmpty)).headD [] == ("index.html").data) = false := by
    rw [List.headD_cons]
    decide
  simp only [getBasePath, hseg1, hseg2, hg, hn, hhead, Bool.false_and, Bool.true_and,
    List.isEmpty_cons, Bool.not_false, Bool.and_true, Bool.and_false, if_true, if_false,
    Bool.false_eq_true, List.drop_succ_cons, List.drop_zero]
  rcases hR : rest.data with _ | ⟨r0, rtail⟩
  · rw [show List.filter (fun s => !s.isEmpty) (splitChar ([] : List Char) '/') = [] from by decide]
    simp [basePathFromSegments]
  · have hL1 : pathEndsWithSlash (("/my-project/") ++ rest)
        = ((r0 :: rtail).getLast? == some '/') := by
      rw [pathEndsWithSlash, hd1, hR,
        show ('/' :: (("my-project").data ++ '/' :: (r0 :: rtail)))
          = ('/' :: ("my-project").data ++ ['/']) ++ (r0 :: rtail) from by simp,
        getLast?_append_cons]
    have hL2 : pathEndsWithSlash (("/") ++ rest)
        = ((r0 :: rtail).getLast? == some '/') := by
      rw [pathEndsWithSlash, hd2, hR,
        show ('/' :: (r0 :: rtail)) = ['/'] ++ (r0 :: rtail) from rfl,
        getLast?_append_cons]
    have hne1 : ((("/my-project/") ++ rest) == ("/")) = false := by
      apply string_beq_false_of_data_ne
      rw [hd1, show ("/").data = ['/'] from by decide]
      intro e
      injection e with e1 e2
      exact absurd e2 (by simp)
    have hne2 : ((("/") ++ rest) == ("/")) = false := by
      apply string_beq_false_of_data_ne
      rw [hd2, hR, show ("/").data = ['/'] from by decide]
      intro e
      injection e with e1 e2
      exact List.cons_ne_nil _ _ e2
    rw [hL1, hL2, hne1, hne2]

/-- C3 witness: the particular instance named by the claim, the path
`/my-project/blog/index.html` on a GitHub Pages host against
`/blog/index.html` elsewhere. -/
theorem claim_C3_witness :
    ghHost ("user.github.io") = true ∧ ghHost ("example.com") = false ∧
    getBasePath ("user.github.io") (("/my-project/") ++ ("blog/index.html")) =
      getBasePath ("example.com") (("/") ++ ("blog/index.html")) :=
  ⟨by decide, by decide,
    claim_C3 ("user.github.io") ("example.com") ("blog/index.html") (by decide) (by decide)⟩
